import Mathlib

/-!
Shallow embedding of the MCP ecosystem integrator
(`MCP_ECOSYSTEM_INTEGRATOR.py`) and the liveness-probe HTTP service
(`apple_notes_mcp_server.py`), together with theorems settling the
specification claims about them.

Conventions of the embedding:
* Python dataclasses become Lean structures with the same field names.
* The integrator's dictionaries keyed by server name become ordered
  association lists (`List (String × _)`), preserving Python's dict
  insertion order.
* JSON documents produced by the renderers are modelled by an explicit
  `Json` syntax tree; `json.dump` is a function of that tree, so equality
  of trees is byte-identity of the serialized artifacts.
* Filesystem writes are modelled by an injected sink `String → Bool`
  (path ↦ success) and the run threads outcomes explicitly.
-/

/-- MCP connection definition (dataclass `MCPConnection`). -/
structure MCPConnection where
  name : String
  source : String
  target : String
  protocol : String
  endpoints : List String
  authentication : String
  capabilities : List String
  status : String := "pending"
deriving DecidableEq, Repr

/-- MCP communication pattern (dataclass `MCPPattern`). -/
structure MCPPattern where
  name : String
  description : String
  source_components : List String
  target_components : List String
  data_flow : String
  trigger_events : List String
  response_handling : String
deriving DecidableEq, Repr

/-- One entry of the `mcp_servers` registry dictionary: display name,
filesystem path (flattened to a string, with the constructor's default
`base_path`), capabilities and endpoints. -/
structure MCPServerInfo where
  name : String
  path : String
  capabilities : List String
  endpoints : List String
deriving DecidableEq, Repr

/-- The constructor's default `base_path`. -/
def base_path : String := "/Users/divinejohns/memU/memu"

/-- `self.mcp_servers`, as an ordered association list (Python dict
insertion order). -/
def mcp_servers : List (String × MCPServerInfo) :=
  [ ("activepieces",
      { name := "Activepieces MCP Server"
        path := base_path ++ "/worldwidebro-repositories/activepieces"
        capabilities := ["workflow_orchestration", "automation", "api_integration"]
        endpoints := ["/api/v1/flows", "/api/v1/triggers", "/api/v1/actions"] }),
    ("claude_flow",
      { name := "Claude Flow MCP Server"
        path := base_path ++ "/iza-os-integrated/30-models/claude-flow"
        capabilities := ["ai_orchestration", "conversation_management", "agent_coordination"]
        endpoints := ["/api/v1/agents", "/api/v1/conversations", "/api/v1/workflows"] }),
    ("iza_os_core",
      { name := "IZA OS Core MCP Server"
        path := base_path ++ "/iza-os-integrated/00-meta"
        capabilities := ["system_orchestration", "configuration_management", "registry_operations"]
        endpoints := ["/api/v1/config", "/api/v1/registry", "/api/v1/status"] }),
    ("github_integration",
      { name := "GitHub Integration MCP Server"
        path := base_path ++ "/worldwidebro-integration"
        capabilities := ["repository_management", "code_analysis", "collaboration"]
        endpoints := ["/api/v1/repos", "/api/v1/analysis", "/api/v1/collaboration"] }) ]

/-- The registered server ids, in insertion order. -/
def registeredIds : List String := mcp_servers.map Prod.fst

/-- `self.mcp_connections` as built by `create_mcp_connections`. -/
def mcp_connections : List MCPConnection :=
  [ { name := "Activepieces to IZA OS"
      source := "activepieces", target := "iza_os_core", protocol := "mcp"
      endpoints := ["/api/v1/flows", "/api/v1/config"]
      authentication := "api_key"
      capabilities := ["workflow_orchestration", "system_configuration"] },
    { name := "Claude Flow to Activepieces"
      source := "claude_flow", target := "activepieces", protocol := "mcp"
      endpoints := ["/api/v1/agents", "/api/v1/flows"]
      authentication := "oauth2"
      capabilities := ["ai_workflow_integration", "conversation_automation"] },
    { name := "GitHub to IZA OS"
      source := "github_integration", target := "iza_os_core", protocol := "mcp"
      endpoints := ["/api/v1/repos", "/api/v1/registry"]
      authentication := "github_token"
      capabilities := ["repository_sync", "code_analysis"] },
    { name := "IZA OS to Claude Flow"
      source := "iza_os_core", target := "claude_flow", protocol := "mcp"
      endpoints := ["/api/v1/config", "/api/v1/agents"]
      authentication := "internal"
      capabilities := ["system_orchestration", "agent_management"] },
    { name := "Activepieces to GitHub"
      source := "activepieces", target := "github_integration", protocol := "mcp"
      endpoints := ["/api/v1/flows", "/api/v1/repos"]
      authentication := "api_key"
      capabilities := ["workflow_automation", "repository_operations"] } ]

/-- `self.mcp_patterns` as built by `create_mcp_patterns`. -/
def mcp_patterns : List MCPPattern :=
  [ { name := "Repository Analysis Workflow"
      description := "Automated analysis of new repositories using AI agents"
      source_components := ["github_integration", "claude_flow"]
      target_components := ["iza_os_core", "activepieces"]
      data_flow := "github -> claude_flow -> iza_os_core -> activepieces"
      trigger_events := ["new_repository", "code_push", "pull_request"]
      response_handling := "async_with_webhook" },
    { name := "AI Agent Orchestration"
      description := "Coordinate AI agents across different systems"
      source_components := ["claude_flow", "iza_os_core"]
      target_components := ["activepieces", "github_integration"]
      data_flow := "claude_flow -> iza_os_core -> activepieces -> github_integration"
      trigger_events := ["agent_request", "workflow_trigger", "system_event"]
      response_handling := "real_time_streaming" },
    { name := "System Health Monitoring"
      description := "Monitor and maintain system health across all components"
      source_components := ["iza_os_core", "activepieces"]
      target_components := ["claude_flow", "github_integration"]
      data_flow := "iza_os_core -> activepieces -> claude_flow -> github_integration"
      trigger_events := ["health_check", "performance_alert", "error_detection"]
      response_handling := "immediate_response" },
    { name := "Workflow Automation Chain"
      description := "Chain multiple workflows across different systems"
      source_components := ["activepieces", "claude_flow"]
      target_components := ["github_integration", "iza_os_core"]
      data_flow := "activepieces -> claude_flow -> github_integration -> iza_os_core"
      trigger_events := ["workflow_start", "task_completion", "user_action"]
      response_handling := "sequential_processing" } ]

/-! ### The Relationship Model's add-time validation (spec §4.2)

The source builds `self.mcp_connections` / `self.mcp_patterns` by assigning
hardcoded literal lists; it has no `addConnection`/`addPattern` operation and
performs none of the validation the specification assigns to the Relationship
Model. The operations below are therefore modelled from the spec. -/

/-- Validation errors of the Relationship Model (spec §7 taxonomy). -/
inductive ValidationError where
  | UnknownServerError (id : String)
  | EndpointMismatchError (endpoint : String)
  | MalformedDataFlowError
  | SelfLoopError
deriving DecidableEq, Repr

/-- Union of the declared endpoints of a connection's source and target
registry entries (empty for an unresolved endpoint id). -/
def unionEndpoints (reg : List (String × MCPServerInfo)) (c : MCPConnection) :
    List String :=
  ((reg.lookup c.source).map MCPServerInfo.endpoints).getD [] ++
    ((reg.lookup c.target).map MCPServerInfo.endpoints).getD []

/-- Modelled from the spec: `addConnection` of the Relationship Model
(§4.2), absent from the source. Checks, in the spec's order: `source` and
`target` resolve in the registry (else `UnknownServerError` naming the
unresolved id), every listed endpoint appears in the union of the source's
and target's declared endpoints (else `EndpointMismatchError` naming the
offending endpoint), and no self-loop; on success the connection is appended
to the stored list. -/
def addConnection (reg : List (String × MCPServerInfo))
    (model : List MCPConnection) (c : MCPConnection) :
    Except ValidationError (List MCPConnection) :=
  if (reg.lookup c.source).isNone then
    .error (.UnknownServerError c.source)
  else if (reg.lookup c.target).isNone then
    .error (.UnknownServerError c.target)
  else
    match c.endpoints.find? (fun e => !((unionEndpoints reg c).contains e)) with
    | some e => .error (.EndpointMismatchError e)
    | none =>
        if c.source == c.target then .error .SelfLoopError
        else .ok (model ++ [c])

/-- The stored connection list after an add, paired with the error (if any):
on failure the stored list is unchanged. -/
def addConnectionState (reg : List (String × MCPServerInfo))
    (model : List MCPConnection) (c : MCPConnection) :
    List MCPConnection × Option ValidationError :=
  match addConnection reg model c with
  | .ok m => (m, none)
  | .error e => (model, some e)

/-- Helper of `splitArrow`: scans the character list, emitting a token at
each non-overlapping occurrence of `" -> "`, exactly as Python's
`str.split(" -> ")` does. -/
def splitArrowAux : List Char → List Char → List String
  | [], acc => [String.mk acc.reverse]
  | ' ' :: '-' :: '>' :: ' ' :: rest, acc =>
      String.mk acc.reverse :: splitArrowAux rest []
  | c :: rest, acc => splitArrowAux rest (c :: acc)

/-- Python's `s.split(" -> ")`. -/
def splitArrow (s : String) : List String := splitArrowAux s.data []

/-- The tokens of a pattern's `data_flow` chain, split on the
conventional separator. -/
def dataFlowTokens (p : MCPPattern) : List String :=
  splitArrow p.data_flow

/-- The structural invariant spec §4.2 requires of a pattern's `data_flow`:
at least two tokens, every token a registered id, first token in
`source_components`, last token in `target_components`. -/
def patternDataFlowOk (reg : List (String × MCPServerInfo)) (p : MCPPattern) :
    Bool :=
  let ts := dataFlowTokens p
  decide (2 ≤ ts.length) &&
    ts.all (fun t => (reg.lookup t).isSome) &&
    (match ts.head? with
     | some h => p.source_components.contains h
     | none => false) &&
    (match ts.getLast? with
     | some l => p.target_components.contains l
     | none => false)

/-- Modelled from the spec: `addPattern` of the Relationship Model (§4.2),
absent from the source. Component ids must resolve (else
`UnknownServerError`), and the `data_flow` chain must satisfy
`patternDataFlowOk` (else `MalformedDataFlowError`). -/
def addPattern (reg : List (String × MCPServerInfo))
    (model : List MCPPattern) (p : MCPPattern) :
    Except ValidationError (List MCPPattern) :=
  match (p.source_components ++ p.target_components).find?
      (fun i => (reg.lookup i).isNone) with
  | some i => .error (.UnknownServerError i)
  | none =>
      if patternDataFlowOk reg p then .ok (model ++ [p])
      else .error .MalformedDataFlowError

/-! ### Liveness probe service (`apple_notes_mcp_server.py`) -/

/-- An HTTP response as assembled by the handler: status code, optional
`Content-type` header, and the body bytes written. -/
structure HttpResponse where
  statusCode : Nat
  contentType : Option String
  body : String
deriving DecidableEq, Repr

/-- `json.dumps` of a flat string-to-string object, with Python's default
separators (`", "` and `": "`). -/
def jsonDumpsObj (kvs : List (String × String)) : String :=
  "\x7b" ++
    String.intercalate ", "
      (kvs.map (fun kv => "\"" ++ kv.1 ++ "\": \"" ++ kv.2 ++ "\"")) ++
  "\x7d"

/-- The health response body's key/value pairs. -/
def healthPairs : List (String × String) :=
  [("status", "healthy"), ("server", "apple-notes-mcp")]

/-- `GenericMCPHandler.do_GET`: `self.path` (the raw request target,
query string included) is compared to `"/health"` by exact string
equality; on a match a 200 JSON response is written, otherwise a 404
with no body. -/
def do_GET (path : String) : HttpResponse :=
  if path = "/health" then
    { statusCode := 200
      contentType := some "application/json"
      body := jsonDumpsObj healthPairs }
  else
    { statusCode := 404, contentType := none, body := "" }

/-! ### JSON documents -/

/-- Abstract syntax of the JSON documents the integrator renders.
`json.dump` with a fixed indent is an injective function of this tree, so
equality of trees is byte-identity of the serialized artifacts. Object
fields are ordered as in the Python dict literals. -/
inductive Json where
  | str : String → Json
  | num : Int → Json
  | bool : Bool → Json
  | arr : List Json → Json
  | obj : List (String × Json) → Json

/-- Look a key up in a JSON object (`none` on non-objects). -/
def Json.getObjVal : Json → String → Option Json
  | .obj kvs, k => kvs.lookup k
  | _, _ => none

/-- A tool entry of `tools_map`: name, description, and an `inputSchema`
object whose `properties` maps each argument to its type tag. -/
def toolJson (name desc : String) (props : List (String × String)) : Json :=
  .obj [ ("name", .str name),
         ("description", .str desc),
         ("inputSchema", .obj [
           ("type", .str "object"),
           ("properties",
             .obj (props.map (fun kv => (kv.1, Json.obj [("type", .str kv.2)])))) ]) ]

/-- `tools_map` of `get_server_tools`. -/
def tools_map : List (String × List Json) :=
  [ ("activepieces",
      [ toolJson "create_workflow" "Create a new workflow in Activepieces"
          [("name", "string"), ("trigger", "string"), ("actions", "array")],
        toolJson "execute_workflow" "Execute a workflow"
          [("workflow_id", "string"), ("input_data", "object")] ]),
    ("claude_flow",
      [ toolJson "create_agent" "Create a new AI agent"
          [("name", "string"), ("capabilities", "array"), ("prompt", "string")],
        toolJson "orchestrate_agents" "Orchestrate multiple agents"
          [("agents", "array"), ("task", "string")] ]),
    ("iza_os_core",
      [ toolJson "update_config" "Update system configuration"
          [("config_path", "string"), ("config_data", "object")],
        toolJson "register_component" "Register a new component"
          [("component_name", "string"), ("component_type", "string"),
           ("endpoints", "array")] ]),
    ("github_integration",
      [ toolJson "analyze_repository" "Analyze a GitHub repository"
          [("repo_url", "string"), ("analysis_type", "string")],
        toolJson "sync_repositories" "Sync repositories with IZA OS"
          [("repo_list", "array"), ("sync_options", "object")] ]) ]

/-- `get_server_tools`: look the server name up in `tools_map`, defaulting
to the empty list for an unknown name. -/
def get_server_tools (server_name : String) : List Json :=
  (tools_map.lookup server_name).getD []

/-- A resource entry of `resources_map`. -/
def resourceJson (uri name desc : String) : Json :=
  .obj [("uri", .str uri), ("name", .str name), ("description", .str desc)]

/-- `resources_map` of `get_server_resources`. -/
def resources_map : List (String × List Json) :=
  [ ("activepieces",
      [ resourceJson "activepieces://workflows" "Activepieces Workflows"
          "Access to all workflows in Activepieces",
        resourceJson "activepieces://triggers" "Activepieces Triggers"
          "Access to all triggers in Activepieces" ]),
    ("claude_flow",
      [ resourceJson "claude-flow://agents" "Claude Flow Agents"
          "Access to all AI agents in Claude Flow",
        resourceJson "claude-flow://conversations" "Claude Flow Conversations"
          "Access to conversation history" ]),
    ("iza_os_core",
      [ resourceJson "iza-os://config" "IZA OS Configuration"
          "Access to system configuration",
        resourceJson "iza-os://registry" "IZA OS Registry"
          "Access to component registry" ]),
    ("github_integration",
      [ resourceJson "github://repositories" "GitHub Repositories"
          "Access to repository data",
        resourceJson "github://analysis" "Repository Analysis"
          "Access to analysis results" ]) ]

/-- `get_server_resources`, defaulting to the empty list. -/
def get_server_resources (server_name : String) : List Json :=
  (resources_map.lookup server_name).getD []

/-- A prompt entry of `prompts_map`: name, description, argument list. -/
def promptJson (name desc : String) (args : List (String × String)) : Json :=
  .obj [ ("name", .str name),
         ("description", .str desc),
         ("arguments",
           .arr (args.map (fun kv =>
             Json.obj [("name", .str kv.1), ("description", .str kv.2)]))) ]

/-- `prompts_map` of `get_server_prompts`. -/
def prompts_map : List (String × List Json) :=
  [ ("activepieces",
      [ promptJson "workflow_optimizer" "Optimize workflow performance"
          [("workflow_id", "ID of the workflow to optimize")] ]),
    ("claude_flow",
      [ promptJson "agent_coordinator" "Coordinate multiple agents for a task"
          [("task_description", "Description of the task"),
           ("available_agents", "List of available agents")] ]),
    ("iza_os_core",
      [ promptJson "system_analyzer" "Analyze system performance and health"
          [("analysis_scope", "Scope of analysis")] ]),
    ("github_integration",
      [ promptJson "repository_insights" "Generate insights about repositories"
          [("repo_url", "Repository URL"),
           ("insight_type", "Type of insights to generate")] ]) ]

/-- `get_server_prompts`, defaulting to the empty list. -/
def get_server_prompts (server_name : String) : List Json :=
  (prompts_map.lookup server_name).getD []

/-- The per-server configuration document built by
`create_mcp_server_configs` for one registry entry. -/
def serverConfig (server_name : String) (info : MCPServerInfo) : Json :=
  .obj [ ("name", .str info.name),
         ("version", .str "1.0.0"),
         ("capabilities", .arr (info.capabilities.map .str)),
         ("endpoints", .arr (info.endpoints.map .str)),
         ("authentication", .obj [("type", .str "api_key"), ("required", .bool true)]),
         ("mcp_protocol", .obj [
           ("version", .str "2024-11-05"),
           ("transport", .str "stdio"),
           ("capabilities", .obj [
             ("tools", .bool true), ("resources", .bool true),
             ("prompts", .bool true), ("logging", .bool true)]) ]),
         ("tools", .arr (get_server_tools server_name)),
         ("resources", .arr (get_server_resources server_name)),
         ("prompts", .arr (get_server_prompts server_name)) ]

/-- One entry of the manifest's `connections[]` list. -/
def connectionJson (conn : MCPConnection) : Json :=
  .obj [ ("name", .str conn.name),
         ("source", .str conn.source),
         ("target", .str conn.target),
         ("protocol", .str conn.protocol),
         ("endpoints", .arr (conn.endpoints.map .str)),
         ("authentication", .str conn.authentication),
         ("capabilities", .arr (conn.capabilities.map .str)),
         ("status", .str conn.status) ]

/-- One entry of the manifest's `patterns[]` list. -/
def patternJson (p : MCPPattern) : Json :=
  .obj [ ("name", .str p.name),
         ("description", .str p.description),
         ("source_components", .arr (p.source_components.map .str)),
         ("target_components", .arr (p.target_components.map .str)),
         ("data_flow", .str p.data_flow),
         ("trigger_events", .arr (p.trigger_events.map .str)),
         ("response_handling", .str p.response_handling) ]

/-- `create_mcp_integration_manifest`, with the `datetime.now().isoformat()`
timestamp injected as `created_at` and the integrator state passed
explicitly. -/
def create_mcp_integration_manifest (created_at : String)
    (conns : List MCPConnection) (pats : List MCPPattern)
    (servers : List (String × MCPServerInfo)) : Json :=
  .obj [ ("mcp_ecosystem", .obj [
           ("name", .str "Worldwidebro MCP Ecosystem"),
           ("version", .str "1.0.0"),
           ("created_at", .str created_at),
           ("total_connections", .num conns.length),
           ("total_patterns", .num pats.length),
           ("servers", .arr ((servers.map Prod.fst).map .str)) ]),
         ("connections", .arr (conns.map connectionJson)),
         ("patterns", .arr (pats.map patternJson)),
         ("deployment", .obj [
           ("recommended_platform", .str "Vercel"),
           ("reasoning", .str "Better support for React/Next.js applications and AI/ML workflows"),
           ("alternative", .str "Netlify"),
           ("configuration_files", .arr
             ([ "vercel.json", "netlify.toml", "package.json",
                "next.config.js" ].map .str)) ]) ]

/-- The `deployment_analysis` document of `create_deployment_analysis`
(static knowledge table; no derivation from the registry or model). -/
def deployment_analysis : Json :=
  .obj [ ("vercel", .obj [
           ("pros", .arr ([
             "Excellent Next.js support (perfect for React apps)",
             "Serverless functions with zero config",
             "Edge functions for global performance",
             "Built-in analytics and monitoring",
             "GitHub integration with automatic deployments",
             "Preview deployments for every PR",
             "Excellent developer experience",
             "Support for monorepos",
             "Built-in image optimization",
             "Edge caching and CDN" ].map .str)),
           ("cons", .arr ([
             "More expensive for high-traffic applications",
             "Vendor lock-in to Vercel ecosystem",
             "Limited database options",
             "Cold starts for serverless functions",
             "Less control over infrastructure" ].map .str)),
           ("best_for", .arr ([
             "React/Next.js applications",
             "JAMstack applications",
             "Static sites with dynamic features",
             "API routes and serverless functions",
             "Developer-focused projects" ].map .str)),
           ("pricing", .obj [
             ("hobby", .str "Free (with limits)"),
             ("pro", .str "$20/month per team member"),
             ("enterprise", .str "Custom pricing") ]) ]),
         ("netlify", .obj [
           ("pros", .arr ([
             "Excellent for static sites and JAMstack",
             "Built-in form handling",
             "Split testing capabilities",
             "Edge functions (Netlify Functions)",
             "Git integration with automatic deployments",
             "Preview deployments",
             "Built-in CDN",
             "Good free tier",
             "Easy custom domain setup",
             "Built-in analytics" ].map .str)),
           ("cons", .arr ([
             "Less support for complex server-side applications",
             "Limited database integration",
             "Less flexible than Vercel for full-stack apps",
             "Cold starts for functions",
             "Less advanced than Vercel for React apps" ].map .str)),
           ("best_for", .arr ([
             "Static sites and JAMstack",
             "Documentation sites",
             "Marketing websites",
             "Simple web applications",
             "Form-based applications" ].map .str)),
           ("pricing", .obj [
             ("starter", .str "Free (with limits)"),
             ("pro", .str "$19/month per team member"),
             ("business", .str "$99/month per team member"),
             ("enterprise", .str "Custom pricing") ]) ]),
         ("recommendation", .obj [
           ("primary", .str "Vercel"),
           ("reasoning", .arr ([
             "Your ecosystem is heavily React/Next.js focused",
             "IZA OS and Claude Flow likely use React components",
             "Better support for complex applications",
             "Superior developer experience",
             "Better integration with modern tooling",
             "More suitable for AI/ML applications" ].map .str)),
           ("fallback", .str "Netlify"),
           ("fallback_reasoning", .arr ([
             "Good alternative for simpler deployments",
             "Better pricing for basic use cases",
             "Excellent for documentation and marketing sites" ].map .str)) ]) ]

/-! ### Deployment descriptors -/

/-- The `routes` entries of `create_vercel_config`, as (src, dest) pairs.
The list is a hardcoded literal in the source; it is not derived from
`mcp_servers`. -/
def vercel_routes : List (String × String) :=
  [ ("/api/iza-os/(.*)", "/iza-os-integrated/00-meta/api/$1"),
    ("/api/activepieces/(.*)",
      "/worldwidebro-repositories/activepieces/packages/server/api/$1"),
    ("/api/claude-flow/(.*)", "/iza-os-integrated/30-models/claude-flow/api/$1"),
    ("/api/github/(.*)", "/worldwidebro-integration/api/$1") ]

/-- The `vercel.json` document of `create_vercel_config`. -/
def vercel_config : Json :=
  .obj [ ("version", .num 2),
         ("builds", .arr [
           .obj [("src", .str "iza-os-integrated/50-apps/*/package.json"),
                 ("use", .str "@vercel/next")],
           .obj [("src", .str "worldwidebro-repositories/activepieces/packages/server/api/package.json"),
                 ("use", .str "@vercel/node")] ]),
         ("routes", .arr (vercel_routes.map
           (fun r => Json.obj [("src", .str r.1), ("dest", .str r.2)]))),
         ("env", .obj [
           ("MCP_SERVER_URL", .str "https://your-domain.vercel.app"),
           ("ACTIVEPIECES_API_KEY", .str "@activepieces_api_key"),
           ("GITHUB_TOKEN", .str "@github_token"),
           ("ANTHROPIC_API_KEY", .str "@anthropic_api_key") ]),
         ("functions", .obj [
           ("iza-os-integrated/00-meta/api/*.js",
             .obj [("maxDuration", .num 30)]),
           ("worldwidebro-repositories/activepieces/packages/server/api/*.js",
             .obj [("maxDuration", .num 60)]) ]) ]

/-- The literal `netlify.toml` text of `create_netlify_config`. -/
def netlify_config : String :=
  "[build]\n  publish = \"dist\"\n  command = \"npm run build\"\n\n[build.environment]\n  NODE_VERSION = \"18\"\n  MCP_SERVER_URL = \"https://your-domain.netlify.app\"\n\n[[redirects]]\n  from = \"/api/iza-os/*\"\n  to = \"/iza-os-integrated/00-meta/api/:splat\"\n  status = 200\n\n[[redirects]]\n  from = \"/api/activepieces/*\"\n  to = \"/worldwidebro-repositories/activepieces/packages/server/api/:splat\"\n  status = 200\n\n[[redirects]]\n  from = \"/api/claude-flow/*\"\n  to = \"/iza-os-integrated/30-models/claude-flow/api/:splat\"\n  status = 200\n\n[[redirects]]\n  from = \"/api/github/*\"\n  to = \"/worldwidebro-integration/api/:splat\"\n  status = 200\n\n[functions]\n  directory = \"netlify/functions\"\n  node_bundler = \"esbuild\"\n\n[[headers]]\n  for = \"/api/*\"\n  [headers.values]\n    Access-Control-Allow-Origin = \"*\"\n    Access-Control-Allow-Headers = \"Content-Type, Authorization\"\n    Access-Control-Allow-Methods = \"GET, POST, PUT, DELETE, OPTIONS\"\n"

/-- Does the character list `s` start with `pre`? (Kernel-friendly
replacement for substring primitives.) -/
def charsStart : List Char → List Char → Bool
  | [], _ => true
  | _ :: _, [] => false
  | a :: as, b :: bs => a == b && charsStart as bs

/-- Does the character list `s` contain `sub` as a contiguous run? -/
def charsInfix (sub : List Char) : List Char → Bool
  | [] => charsStart sub []
  | c :: rest => charsStart sub (c :: rest) || charsInfix sub rest

/-- Does `s` contain `sub` as a substring? -/
def strContains (s sub : String) : Bool := charsInfix sub.data s.data

/-- Does some Vercel route's `src` start with `/api/<id>/`? -/
def hasApiRoute (id : String) : Bool :=
  vercel_routes.any (fun r => charsStart ("/api/" ++ id ++ "/").data r.1.data)

/-- Does the Netlify descriptor hold a redirect rule from `/api/<id>/`? -/
def netlifyHasApiRedirect (id : String) : Bool :=
  strContains netlify_config ("from = \"/api/" ++ id ++ "/")

/-! ### The run and its artifact writes -/

/-- Content of one generated artifact: a JSON tree (written via
`json.dump`) or literal text (written via `f.write`). -/
inductive ArtifactContent where
  | json : Json → ArtifactContent
  | text : String → ArtifactContent

/-- Target path of a per-server config artifact. -/
def mcpConfigPath (server_name : String) : String :=
  base_path ++ "/mcp-configs/" ++ server_name ++ "_mcp_config.json"

/-- Target path of `deployment_analysis.json`. -/
def analysisPath : String := base_path ++ "/deployment_analysis.json"

/-- Target path of `mcp_ecosystem_manifest.json`. -/
def manifestPath : String := base_path ++ "/mcp_ecosystem_manifest.json"

/-- Target path of `vercel.json`. -/
def vercelPath : String := base_path ++ "/vercel.json"

/-- Target path of `netlify.toml`. -/
def netlifyPath : String := base_path ++ "/netlify.toml"

/-- The per-server config artifacts, in registry insertion order
(`create_mcp_server_configs` iterates `self.mcp_servers.items()`). -/
def serverConfigArtifacts : List (String × ArtifactContent) :=
  mcp_servers.map (fun s => (mcpConfigPath s.1, .json (serverConfig s.1 s.2)))

/-- All artifacts of one `run_integration` pass, in write order: the four
per-server configs, the deployment analysis, the ecosystem manifest (with
the injected timestamp), `vercel.json`, `netlify.toml`. -/
def runArtifacts (created_at : String) : List (String × ArtifactContent) :=
  serverConfigArtifacts ++
    [ (analysisPath, .json deployment_analysis),
      (manifestPath, .json (create_mcp_integration_manifest created_at
        mcp_connections mcp_patterns mcp_servers)),
      (vercelPath, .json vercel_config),
      (netlifyPath, .text netlify_config) ]

/-- Attempt the writes in order against a sink (`path ↦ success`). The
source wraps no write in a try/except, so the first failing write raises
out of `run_integration`: the result is the successfully written paths
and, if a write failed, its path — writes after it are never attempted. -/
def writeAll (sink : String → Bool) :
    List (String × ArtifactContent) → List String × Option String
  | [] => ([], none)
  | (p, _) :: rest =>
      if sink p then
        let r := writeAll sink rest
        (p :: r.1, r.2)
      else ([], some p)

/-- `run_integration` restricted to its artifact writes, against an
injected sink and timestamp. -/
def run_integration (sink : String → Bool) (created_at : String) :
    List String × Option String :=
  writeAll sink (runArtifacts created_at)

/-- A sink that fails exactly on the ecosystem manifest's path. -/
def manifestFailSink : String → Bool := fun p => p != manifestPath

/-- The artifacts written before the manifest in a run. -/
def preManifestArtifacts : List (String × ArtifactContent) :=
  serverConfigArtifacts ++ [(analysisPath, .json deployment_analysis)]

/-- A connection whose source id `"ghost"` was never registered (the
spec's own example). -/
def ghostConnection : MCPConnection :=
  { name := "Ghost to IZA OS", source := "ghost", target := "iza_os_core"
    protocol := "mcp", endpoints := [], authentication := "api_key"
    capabilities := [] }

/-- A connection listing an endpoint neither its source nor its target
declares (the spec's own example endpoint). -/
def badEndpointConnection : MCPConnection :=
  { name := "Activepieces to IZA OS (bad endpoint)"
    source := "activepieces", target := "iza_os_core", protocol := "mcp"
    endpoints := ["/api/v1/unknown"], authentication := "api_key"
    capabilities := [] }

/-! ## Claims -/

/-- C1: adding a Connection whose source or target does not resolve to a
registered server id fails with `UnknownServerError` naming the unresolved
id, and the stored connection list is unchanged. (Validation modelled from
the spec; the source has no add operation.) -/
theorem connection_unknown_server_rejected
    (reg : List (String × MCPServerInfo)) (model : List MCPConnection)
    (c : MCPConnection)
    (h : (reg.lookup c.source).isNone = true ∨ (reg.lookup c.target).isNone = true) :
    ∃ id, (reg.lookup id).isNone = true ∧
      addConnectionState reg model c = (model, some (.UnknownServerError id)) := by
  rcases h with h | h
  · exact ⟨c.source, h, by simp [addConnectionState, addConnection, h]⟩
  · by_cases hs : (reg.lookup c.source).isNone = true
    · exact ⟨c.source, hs, by simp [addConnectionState, addConnection, hs]⟩
    · exact ⟨c.target, h, by simp [addConnectionState, addConnection, hs, h]⟩

/-- Witness for C1 at the spec's example input. -/
theorem connection_unknown_server_rejected_witness :
    ∃ id, (mcp_servers.lookup id).isNone = true ∧
      addConnectionState mcp_servers [] ghostConnection =
        ([], some (.UnknownServerError id)) :=
  connection_unknown_server_rejected mcp_servers [] ghostConnection
    (Or.inl (by decide))

/-- C2: the model built by `create_mcp_patterns` itself holds a pattern
violating the `data_flow` invariant, unrejected: the first pattern,
"Repository Analysis Workflow", has first token `"github"`, which is not a
registered server id (its own `source_components` list `"github_integration"`
instead), so the spec-modelled `addPattern` rejects it with
`MalformedDataFlowError` while the source stores and renders it. -/
theorem pattern_dataflow_invariant_violated_in_model :
    mcp_patterns[0]?.map MCPPattern.name = some "Repository Analysis Workflow" ∧
    mcp_patterns[0]?.map dataFlowTokens =
      some ["github", "claude_flow", "iza_os_core", "activepieces"] ∧
    (mcp_servers.lookup "github").isNone = true ∧
    mcp_patterns.any (fun p => !(patternDataFlowOk mcp_servers p)) = true ∧
    mcp_patterns[0]?.map (fun p => addPattern mcp_servers [] p) =
      some (.error .MalformedDataFlowError) := by
  refine ⟨rfl, by decide, by decide, by decide, rfl⟩

/-- C3: every connection actually held in the model satisfies the endpoint
referential invariant, and the spec-modelled `addConnection` rejects a
connection listing an endpoint declared by neither endpoint's registry
entry with `EndpointMismatchError` naming it, leaving the list unchanged. -/
theorem connection_endpoints_invariant :
    (mcp_connections.all
      (fun c => c.endpoints.all
        (fun e => (unionEndpoints mcp_servers c).contains e)) = true) ∧
    ∀ (reg : List (String × MCPServerInfo)) (model : List MCPConnection)
      (c : MCPConnection) (e : String),
      (reg.lookup c.source).isNone = false →
      (reg.lookup c.target).isNone = false →
      c.endpoints.find? (fun x => !((unionEndpoints reg c).contains x)) = some e →
      e ∈ c.endpoints ∧ (unionEndpoints reg c).contains e = false ∧
      addConnectionState reg model c = (model, some (.EndpointMismatchError e)) := by
  refine ⟨by decide, ?_⟩
  intro reg model c e hs ht hf
  refine ⟨List.mem_of_find?_eq_some hf, ?_, ?_⟩
  · have hp := List.find?_some hf
    simpa using hp
  · unfold addConnectionState addConnection
    rw [hf, hs, ht]
    simp

/-- Witness for C3 at the spec's example input. -/
theorem connection_endpoints_invariant_witness :
    "/api/v1/unknown" ∈ badEndpointConnection.endpoints ∧
    (unionEndpoints mcp_servers badEndpointConnection).contains "/api/v1/unknown"
      = false ∧
    addConnectionState mcp_servers [] badEndpointConnection =
      ([], some (.EndpointMismatchError "/api/v1/unknown")) :=
  connection_endpoints_invariant.2 mcp_servers [] badEndpointConnection
    "/api/v1/unknown" (by decide) (by decide) (by decide)

/-- C9: `GET /health` answers 200 with a JSON body holding exactly the
keys `status` (value `"healthy"`) and `server` (the fixed server name);
any other path answers 404 with an empty body. -/
theorem health_probe_wire_contract (path : String) :
    (path = "/health" →
      do_GET path =
        { statusCode := 200
          contentType := some "application/json"
          body := jsonDumpsObj [("status", "healthy"), ("server", "apple-notes-mcp")] }) ∧
    (path ≠ "/health" →
      do_GET path = { statusCode := 404, contentType := none, body := "" }) := by
  constructor
  · intro h
    simp [do_GET, h, healthPairs]
  · intro h
    simp [do_GET, h]

/-- Witness for C9 on a hit and a miss. -/
theorem health_probe_wire_contract_witness :
    do_GET "/health" =
      { statusCode := 200
        contentType := some "application/json"
        body := jsonDumpsObj [("status", "healthy"), ("server", "apple-notes-mcp")] } ∧
    do_GET "/other" = { statusCode := 404, contentType := none, body := "" } :=
  ⟨(health_probe_wire_contract "/health").1 rfl,
   (health_probe_wire_contract "/other").2 (by decide)⟩

/-- C10: the handler compares the raw request path (query string included)
to `"/health"` by exact string equality, so any other string — including
`"/health/"`, `"/Health"` and `"/health?x=1"` — gets a 404 with empty
body. -/
theorem health_probe_exact_match :
    (∀ path : String, path ≠ "/health" →
      (do_GET path).statusCode = 404 ∧ (do_GET path).body = "") ∧
    (do_GET "/health/").statusCode = 404 ∧
    (do_GET "/Health").statusCode = 404 ∧
    (do_GET "/health?x=1").statusCode = 404 := by
  refine ⟨?_, by decide, by decide, by decide⟩
  intro path h
  simp [do_GET, h]

/-- Witness for C10 at a near-miss path. -/
theorem health_probe_exact_match_witness :
    (do_GET "/health/").statusCode = 404 ∧ (do_GET "/health/").body = "" :=
  health_probe_exact_match.1 "/health/" (by decide)

/-- C4: with the timestamp injected, every rendering function is a pure
function of the static declarations, so two runs against the same
declarations and the same timestamp produce, artifact for artifact,
identical documents — the ecosystem manifest included. -/
theorem generation_two_run_deterministic (t1 t2 : String) (h : t1 = t2) :
    runArtifacts t1 = runArtifacts t2 := by
  rw [h]

/-- Witness for C4 at a concrete timestamp. -/
theorem generation_two_run_deterministic_witness :
    runArtifacts "2025-09-30T00:00:00" = runArtifacts "2025-09-30T00:00:00" :=
  generation_two_run_deterministic "2025-09-30T00:00:00" "2025-09-30T00:00:00" rfl

/-- C5 counterexample: with a sink failing exactly on the manifest path,
the run stops at the manifest write — `vercel.json` and `netlify.toml`
are never attempted even though their writes would succeed, so no report
listing "all others as written" exists. -/
theorem run_report_partial_success_counterexample :
    manifestFailSink vercelPath = true ∧
    manifestFailSink netlifyPath = true ∧
    run_integration manifestFailSink "2025-09-30T00:00:00" =
      ([ mcpConfigPath "activepieces", mcpConfigPath "claude_flow",
         mcpConfigPath "iza_os_core", mcpConfigPath "github_integration",
         analysisPath ], some manifestPath) ∧
    vercelPath ∉ (run_integration manifestFailSink "2025-09-30T00:00:00").1 ∧
    netlifyPath ∉ (run_integration manifestFailSink "2025-09-30T00:00:00").1 := by
  refine ⟨by decide, by decide, by decide, by decide, by decide⟩

/-- C5 (amended): the source wraps no artifact write in a try/except, so
the first failing write aborts the run — every artifact before it is
written, the failure is the raised error's path, and no later artifact is
attempted. -/
theorem run_aborts_on_first_write_failure
    (sink : String → Bool) (created_at : String)
    (pre : List (String × ArtifactContent)) (p : String) (c : ArtifactContent)
    (post : List (String × ArtifactContent))
    (h1 : runArtifacts created_at = pre ++ (p, c) :: post)
    (h2 : ∀ x ∈ pre, sink x.1 = true)
    (h3 : sink p = false) :
    run_integration sink created_at = (pre.map Prod.fst, some p) := by
  unfold run_integration
  rw [h1]
  clear h1
  revert h2
  induction pre with
  | nil =>
      intro _
      simp [writeAll, h3]
  | cons hd tl ih =>
      intro h2
      obtain ⟨a, b⟩ := hd
      have ha : sink a = true := h2 (a, b) (by simp)
      have htl : ∀ x ∈ tl, sink x.1 = true := fun x hx => h2 x (by simp [hx])
      simp [writeAll, ha, ih htl]

/-- Witness for the amended C5 at the manifest-failure input. -/
theorem run_aborts_on_first_write_failure_witness :
    run_integration manifestFailSink "2025-09-30T00:00:00" =
      (preManifestArtifacts.map Prod.fst, some manifestPath) :=
  run_aborts_on_first_write_failure manifestFailSink "2025-09-30T00:00:00"
    preManifestArtifacts manifestPath
    (.json (create_mcp_integration_manifest "2025-09-30T00:00:00"
      mcp_connections mcp_patterns mcp_servers))
    [(vercelPath, .json vercel_config), (netlifyPath, .text netlify_config)]
    rfl (by decide) (by decide)

/-- C6: every rendered per-server config document carries the keys
`name`, `capabilities`, `endpoints`, `authentication`, `mcp_protocol`,
`tools`, `resources` and `prompts`, and the tool/resource/prompt fields
are always sequences (the lookup defaults to the empty list), for every
server name whatsoever. -/
theorem server_config_fixed_schema (server_name : String) (info : MCPServerInfo) :
    (serverConfig server_name info).getObjVal "name" = some (.str info.name) ∧
    (serverConfig server_name info).getObjVal "capabilities"
      = some (.arr (info.capabilities.map .str)) ∧
    (serverConfig server_name info).getObjVal "endpoints"
      = some (.arr (info.endpoints.map .str)) ∧
    (serverConfig server_name info).getObjVal "authentication"
      = some (.obj [("type", .str "api_key"), ("required", .bool true)]) ∧
    (serverConfig server_name info).getObjVal "mcp_protocol"
      = some (.obj [
          ("version", .str "2024-11-05"),
          ("transport", .str "stdio"),
          ("capabilities", .obj [
            ("tools", .bool true), ("resources", .bool true),
            ("prompts", .bool true), ("logging", .bool true)]) ]) ∧
    (serverConfig server_name info).getObjVal "tools"
      = some (.arr (get_server_tools server_name)) ∧
    (serverConfig server_name info).getObjVal "resources"
      = some (.arr (get_server_resources server_name)) ∧
    (serverConfig server_name info).getObjVal "prompts"
      = some (.arr (get_server_prompts server_name)) :=
  ⟨rfl, rfl, rfl, rfl, rfl, rfl, rfl, rfl⟩

/-- C7: in the rendered ecosystem manifest, `total_connections` and
`total_patterns` equal the lengths of the `connections[]` and `patterns[]`
lists, those lists render every model entity in insertion order, and
`servers[]` is the list of registered server ids. -/
theorem manifest_cross_references (created_at : String)
    (conns : List MCPConnection) (pats : List MCPPattern)
    (servers : List (String × MCPServerInfo)) :
    ((create_mcp_integration_manifest created_at conns pats servers).getObjVal
        "mcp_ecosystem").bind (fun j => j.getObjVal "total_connections")
      = some (.num conns.length) ∧
    ((create_mcp_integration_manifest created_at conns pats servers).getObjVal
        "mcp_ecosystem").bind (fun j => j.getObjVal "total_patterns")
      = some (.num pats.length) ∧
    (create_mcp_integration_manifest created_at conns pats servers).getObjVal
        "connections" = some (.arr (conns.map connectionJson)) ∧
    (create_mcp_integration_manifest created_at conns pats servers).getObjVal
        "patterns" = some (.arr (pats.map patternJson)) ∧
    ((create_mcp_integration_manifest created_at conns pats servers).getObjVal
        "mcp_ecosystem").bind (fun j => j.getObjVal "servers")
      = some (.arr ((servers.map Prod.fst).map .str)) :=
  ⟨rfl, rfl, rfl, rfl, rfl⟩

set_option maxRecDepth 40000 in
/-- C8 counterexample: `"claude_flow"` is a registered server id, yet
neither descriptor holds a route rule at the logical `/api/claude_flow/`
position — the hardcoded rules use `/api/claude-flow/` instead, and the
route tables are literals independent of the registry. -/
theorem route_per_server_id_counterexample :
    registeredIds.contains "claude_flow" = true ∧
    hasApiRoute "claude_flow" = false ∧
    netlifyHasApiRedirect "claude_flow" = false := by
  refine ⟨by decide, by decide, by decide⟩

set_option maxRecDepth 40000 in
/-- C8 (amended): both descriptors carry a fixed, hardcoded list of four
route rules (`/api/iza-os/`, `/api/activepieces/`, `/api/claude-flow/`,
`/api/github/`) not derived from the registry; of the registered server
ids, only `"activepieces"` has a rule at its `/api/<serverId>/` position,
and registering an additional server changes neither descriptor. -/
theorem routes_hardcoded_not_per_server :
    vercel_routes.map Prod.fst =
      [ "/api/iza-os/(.*)", "/api/activepieces/(.*)",
        "/api/claude-flow/(.*)", "/api/github/(.*)" ] ∧
    registeredIds.all
      (fun id => hasApiRoute id == (id == "activepieces")) = true ∧
    registeredIds.all
      (fun id => netlifyHasApiRedirect id == (id == "activepieces")) = true := by
  refine ⟨rfl, by decide, by decide⟩
